import Mathlib

/-!
Shallow embedding of the jupyterhub-nomad-spawner orchestration code
(`spawner.py` and `nomad/nomad_service.py`).  Remote HTTP calls are
modelled by passing their results (or the parsed response bodies) as
explicit parameters; Python exceptions become `Except` values; the
spawner's mutable identity attributes become an explicit state record.
-/

namespace JNSpawner

/-- A Python-level runtime error raised by the orchestration code itself
(as opposed to a `NomadException` constructed explicitly). `retryError`
is tenacity's `RetryError`, wrapping the exception of the last attempt. -/
inductive PyErr where
  | valueError
  | indexError
  | nameError
  | typeError
  | retryError (last : PyErr)
deriving DecidableEq

/-- `NomadException(message)` from `nomad_service.py`. -/
structure NomadException where
  message : String
deriving DecidableEq

/-- The fields of an httpx response that `nomad_service.py` inspects:
`is_error`, `status_code` and `text`. -/
structure HttpResult where
  is_error : Bool
  status_code : Nat
  text : String
deriving DecidableEq

/-- `startsWithL needle hay`: `hay` begins with `needle` (character lists). -/
def startsWithL : List Char → List Char → Bool
  | [], _ => true
  | _ :: _, [] => false
  | a :: as, b :: bs => a = b && startsWithL as bs

/-- Python's `needle in hay` substring test, on character lists. -/
def hasSub : List Char → List Char → Bool
  | needle, [] => needle.isEmpty
  | needle, c :: rest => startsWithL needle (c :: rest) || hasSub needle rest

/-- Python's `marker in text` on strings. -/
def strContains (text marker : String) : Bool :=
  hasSub marker.data text.data

/-- First idempotent-conflict marker accepted by `create_volume`. -/
def accessPointMarker : String := "ErrorCode: \"AccessPointAlreadyExists\""

/-- Second idempotent-conflict marker accepted by `create_volume`. -/
def externalIdMarker : String := "volume external ID cannot be updated"

/-- `NomadService.create_volume`, lines 44–86 of `nomad_service.py`, as a
function of the PUT response: raises `NomadException` when the response
is an error whose body contains neither idempotent-conflict marker. -/
def create_volume (result : HttpResult) : Except NomadException Unit :=
  if result.is_error &&
      !(strContains result.text accessPointMarker) &&
      !(strContains result.text externalIdMarker) then
    Except.error ⟨"Error registering volume." ++
      " status code: " ++ toString result.status_code ++
      ", content: " ++ result.text⟩
  else
    Except.ok ()

/-- `NomadService.schedule_job`, lines 95–124: as a function of the parse
response, the `ID` field of its parsed body, and the register response.
Despite its `Tuple[str, str]` annotation the source ends with
`return job_id`, a single string. -/
def schedule_job (parsed_job : HttpResult) (parsed_job_ID : String)
    (job : HttpResult) : Except NomadException String :=
  if parsed_job.is_error then
    Except.error ⟨"Error parsing job: " ++ parsed_job.text⟩
  else if job.is_error then
    Except.error ⟨"Error registering job: " ++ job.text⟩
  else
    Except.ok parsed_job_ID

/-- Python tuple-unpacking `a, b = s` of a string `s`: iterates the
string's characters and requires exactly two, else raises `ValueError`. -/
def unpackPair (s : String) : Except PyErr (String × String) :=
  match s.data with
  | [a, b] => Except.ok (String.mk [a], String.mk [b])
  | _ => Except.error PyErr.valueError

/-- The spawner's persisted workload-identity attributes
(`job_id`, `job_name`, `service_name`, `notebook_id`). -/
structure SpawnerState where
  job_id : Option String
  job_name : Option String
  service_name : Option String
  notebook_id : Option String
deriving DecidableEq

/-- `NomadSpawner.clear_state`, lines 411–416 of `spawner.py`: sets
`job_id`, `job_name` and `service_name` to `None`.  It does not touch
`notebook_id`. -/
def clear_state (s : SpawnerState) : SpawnerState :=
  { s with job_id := none, job_name := none, service_name := none }

/-- The keyword arguments a call site passes to the attrs-generated
`NomadService.__init__` (nomad_service.py lines 38–42): the `@define`
class has three annotation-only fields — `client`, `log`, `namespace` —
none with a default, so all three are required constructor arguments. -/
structure NomadServiceCall where
  client : Bool
  log : Bool
  «namespace» : Bool
deriving DecidableEq

/-- The attrs-generated `NomadService.__init__`: raises `TypeError` when
any of the three required fields is not passed. -/
def NomadService_init (call : NomadServiceCall) : Except PyErr Unit :=
  if call.client && call.log && call.«namespace» then Except.ok ()
  else Except.error PyErr.typeError

/-- The construction `NomadService(client=nomad_httpx_client,
log=self.log)` as written at spawner.py lines 356 and 378: `client` and
`log` are passed, the required `namespace` is not. -/
def nomadServiceCallSite : NomadServiceCall := ⟨true, true, false⟩

/-- `NomadSpawner.stop`, lines 374–387, as a function of the result of
`delete_job` and the current state.  Line 378 constructs
`NomadService(client=..., log=...)` before the `try`, omitting the
required `namespace` field, so every invocation raises `TypeError` with
the state untouched and nothing catches it.  The (unreachable) `try`
body is embedded faithfully: on a successful delete `clear_state` runs;
when `delete_job` raises, the `except` block logs and the method returns
with the state untouched. -/
def stop (delete_job_result : Except NomadException Unit)
    (s : SpawnerState) : Except PyErr Unit × SpawnerState :=
  match NomadService_init nomadServiceCallSite with
  | Except.error e => (Except.error e, s)
  | Except.ok _ =>
      match delete_job_result with
      | Except.ok _ => (Except.ok (), clear_state s)
      | Except.error _ => (Except.ok (), s)

/-- Result of `NomadSpawner.poll`: Python `None` (healthy),
the non-running status string, or `-1` on a caught exception. -/
inductive PollResult where
  | healthy
  | unhealthy (status : String)
  | error
deriving DecidableEq

/-- `NomadSpawner.poll`, lines 350–372, as a function of the
`job_status` outcome.  Line 356 constructs `NomadService(client=...,
log=...)` before the `try`, omitting the required `namespace` field, so
every invocation raises `TypeError`, which nothing catches.  The
(unreachable) `try` body is embedded faithfully: `None` iff the status
is `"running"`, the status string otherwise, and `-1` when the status
query raises (that exception is caught). -/
def poll (status_result : Except NomadException String) :
    Except PyErr PollResult :=
  match NomadService_init nomadServiceCallSite with
  | Except.error e => Except.error e
  | Except.ok _ =>
      Except.ok (match status_result with
        | Except.error _ => PollResult.error
        | Except.ok status =>
            if status = "running" then PollResult.healthy
            else PollResult.unhealthy status)

/-- A task lifecycle event (`nomad_model.TaskState.Events` entries);
`task_status` only reads the event's `Type`. -/
structure TaskEvent where
  «Type» : String
deriving DecidableEq

/-- `nomad_model.TaskState` as read by `task_status`: the task's
`State`, its `Failed` flag and its event history. -/
structure TaskState where
  State : String
  Failed : Bool
  Events : List TaskEvent
deriving DecidableEq

/-- An allocation record as read by `task_status`: its `CreateTime` and
its `TaskStates` dict (`None` when the JSON field is null; insertion
order of the dict is kept as list order). -/
structure Alloc where
  CreateTime : Int
  TaskStates : Option (List (String × TaskState))
deriving DecidableEq

/-- `NomadService._get_task_state_from_event`, lines 159–168: looks at
the last event of the task; `"Driver"` or `"Task Setup"` means
`starting`, anything else (or no events) means `pending`. -/
def _get_task_state_from_event (task : TaskState) : String :=
  match task.Events.getLast? with
  | none => "pending"
  | some latest_event =>
      if latest_event.«Type» = "Driver" ∨ latest_event.«Type» = "Task Setup"
      then "starting" else "pending"

/-- The `for task in task_states.values()` loop of `task_status`,
lines 151–157: the first task that is dead-and-failed yields `"dead"`,
otherwise the first non-running task yields its event-derived state;
falling through the loop yields `"running"`. -/
def taskLoop : List TaskState → String
  | [] => "running"
  | task :: rest =>
      if task.State = "dead" ∧ task.Failed then "dead"
      else if task.State ≠ "running" then _get_task_state_from_event task
      else taskLoop rest

/-- Python's `max(allocs, key=lambda x: x["CreateTime"])`: the first
element with maximal `CreateTime` (later elements replace only when
strictly greater); `none` on an empty list, where Python raises
`ValueError`. -/
def pyMaxByCreateTime : List Alloc → Option Alloc
  | [] => none
  | a :: rest =>
      some (rest.foldl
        (fun acc x => if x.CreateTime > acc.CreateTime then x else acc) a)

/-- `NomadService.task_status`, lines 134–157, as a function of the
parsed allocations list.  The source's `if not allocs: return "pending"`
guard tests the httpx `Response` object — which defines no `__bool__`
and is always truthy — so the guard never fires and an empty parsed list
reaches `max(...)`, which raises `ValueError`.  The later
`if not latest_alloc` guard tests a nonempty (truthy) dict for any
structured allocation record and never fires either. -/
def task_status (allocs : List Alloc) : Except PyErr String :=
  match pyMaxByCreateTime allocs with
  | none => Except.error PyErr.valueError
  | some latest_alloc =>
      let task_states := (latest_alloc.TaskStates.getD []).map Prod.snd
      if task_states.isEmpty then Except.ok "pending"
      else Except.ok (taskLoop task_states)

/-- One entry of the consul health response: the spawner reads
`node["Service"]["Address"]` and `node["Service"]["Port"]`. -/
structure ConsulServiceEntry where
  Address : String
  Port : Int
deriving DecidableEq

/-- One node of the consul health response.  Modelled from the spec:
`ConsulService.health_service` (in `consul/consul_service.py`, outside
`src/`) returns, per §4.4, the list of healthy instances, an empty list
when none is registered. -/
structure ConsulNode where
  Service : ConsulServiceEntry
deriving DecidableEq

/-- The body of `NomadSpawner.service`, lines 339–348, for one attempt,
as a function of the consul health response: reads `nodes[0]`, which
raises `IndexError` on an empty list and otherwise returns the first
instance's `(address, port)` — with no check for further instances. -/
def serviceOnce (nodes : List ConsulNode) : Except PyErr (String × Int) :=
  match nodes with
  | [] => Except.error PyErr.indexError
  | node :: _ => Except.ok (node.Service.Address, node.Service.Port)

/-- The tenacity `@retry(wait=wait_fixed(3), stop=stop_after_attempt(5))`
combinator around `serviceOnce`: `fuel` attempts remain, `i` is the
current attempt's index into the stream of consul responses.  Returns
the outcome, the number of attempts made, and the list of waits (3 time
units before each re-attempt); after the final allowed attempt fails,
tenacity raises `RetryError` wrapping the last exception. -/
def retryGo (resp : Nat → List ConsulNode) :
    Nat → Nat → Except PyErr (String × Int) × Nat × List Nat
  | _, 0 => (Except.error (PyErr.retryError PyErr.indexError), 0, [])
  | i, fuel + 1 =>
      match serviceOnce (resp i) with
      | Except.ok v => (Except.ok v, 1, [])
      | Except.error e =>
          if fuel = 0 then (Except.error (PyErr.retryError e), 1, [])
          else
            let rest := retryGo resp (i + 1) fuel
            (rest.1, rest.2.1 + 1, 3 :: rest.2.2)

/-- `NomadSpawner.service` with its retry decorator, line 338: at most
5 attempts. -/
def serviceWithRetry (resp : Nat → List ConsulNode) :
    Except PyErr (String × Int) × Nat × List Nat :=
  retryGo resp 0 5

/-- `NomadService.get_service_address`, lines 184–194, as a function of
the parsed service list: raises "not found" on zero entries, raises
"Multiple services found" on more than one, else returns the single
entry's `(address, port)`.  (This method is not called by `start`.) -/
def get_service_address (services : List ConsulServiceEntry)
    (service_name : String) : Except NomadException (String × Int) :=
  match services with
  | [] => Except.error ⟨"Service " ++ service_name ++ " not found"⟩
  | [s] => Except.ok (s.Address, s.Port)
  | _ :: _ :: _ =>
      Except.error ⟨"Multiple services found for " ++ service_name⟩

/-- Outcome of `_ensure_running` (and of the `start` steps around it). -/
inductive RunOutcome where
  | exited
  | deadError
  | unboundLocal
  | fuelOut
deriving DecidableEq

instance {ε α : Type} [DecidableEq ε] [DecidableEq α] :
    DecidableEq (Except ε α)
  | Except.ok a, Except.ok b => decidable_of_iff (a = b) (by simp)
  | Except.ok _, Except.error _ => isFalse (by simp)
  | Except.error _, Except.ok _ => isFalse (by simp)
  | Except.error a, Except.error b => decidable_of_iff (a = b) (by simp)

/-- Observable events of one `start` execution. -/
inductive Ev where
  | submitted
  | polled (r : Except NomadException String)
  | registryQueried
deriving DecidableEq

/-- `NomadSpawner._ensure_running`, lines 324–336, as a function of the
stream of `job_status` outcomes.  `prev` is the value the Python local
`status` holds from the previous iteration (`none` before the first
assignment).  When `job_status` raises, the exception is caught and
logged and `status` keeps its previous value; if it has never been
assigned, the following `if status == "running"` raises
`UnboundLocalError` (modelled by `unboundLocal`).  The `while True` loop
is modelled with explicit fuel. -/
def ensure_running (st : Nat → Except NomadException String) :
    Nat → Option String → Nat → RunOutcome × List Ev
  | _, _, 0 => (RunOutcome.fuelOut, [])
  | i, prev, fuel + 1 =>
      let r := st i
      match (match r with
                  | Except.ok s => some s
                  | Except.error _ => prev : Option String) with
      | none => (RunOutcome.unboundLocal, [Ev.polled r])
      | some status =>
          if status = "running" then (RunOutcome.exited, [Ev.polled r])
          else if status = "dead" then (RunOutcome.deadError, [Ev.polled r])
          else
            let rest := ensure_running st (i + 1) (some status) fuel
            (rest.1, Ev.polled r :: rest.2)

/-- The tail of `NomadSpawner.start`, lines 305–312: after the submit,
`_ensure_running` is awaited and only if it returns normally is the
registry queried (`self.service(consul_service)`). -/
def startTrace (st : Nat → Except NomadException String) (fuel : Nat) :
    RunOutcome × List Ev :=
  let p := ensure_running st 0 none fuel
  match p.1 with
  | RunOutcome.exited =>
      (RunOutcome.exited, Ev.submitted :: p.2 ++ [Ev.registryQueried])
  | r => (r, Ev.submitted :: p.2)

end JNSpawner


namespace JNSpawner

/-! ### Helper lemmas about the task-status loop -/

theorem taskLoop_all_running (l : List TaskState)
    (h : ∀ t ∈ l, t.State = "running") : taskLoop l = "running" := by
  induction l with
  | nil => rfl
  | cons t rest ih =>
      have ht : t.State = "running" := h t (by simp)
      simp only [taskLoop, ht]
      rw [if_neg (by simp), if_neg (by simp)]
      exact ih fun x hx => h x (List.mem_cons_of_mem _ hx)

theorem taskLoop_first_failed (pre post : List TaskState) (t : TaskState)
    (hpre : ∀ u ∈ pre, u.State = "running") (h1 : t.State = "dead")
    (h2 : t.Failed = true) :
    taskLoop (pre ++ t :: post) = "dead" := by
  induction pre with
  | nil => simp [taskLoop, h1, h2]
  | cons u rest ih =>
      have hu : u.State = "running" := hpre u (by simp)
      simp only [List.cons_append, taskLoop, hu]
      rw [if_neg (by simp), if_neg (by simp)]
      exact ih fun x hx => hpre x (List.mem_cons_of_mem _ hx)

/-! ### Helper lemmas about the retry combinator -/

theorem retryGo_succ (resp : Nat → List ConsulNode) (i fuel : Nat) :
    retryGo resp i (fuel + 1)
      = match serviceOnce (resp i) with
        | Except.ok v => (Except.ok v, 1, [])
        | Except.error e =>
            if fuel = 0 then (Except.error (PyErr.retryError e), 1, [])
            else ((retryGo resp (i + 1) fuel).1,
                  (retryGo resp (i + 1) fuel).2.1 + 1,
                  3 :: (retryGo resp (i + 1) fuel).2.2) := rfl

theorem retryGo_all_empty (resp : Nat → List ConsulNode)
    (h : ∀ j, resp j = []) :
    ∀ fuel i, retryGo resp i (fuel + 1)
      = (Except.error (PyErr.retryError PyErr.indexError), fuel + 1,
          List.replicate fuel 3) := by
  intro fuel
  induction fuel with
  | zero => intro i; rw [retryGo_succ, h i]; rfl
  | succ f ih =>
      intro i
      rw [retryGo_succ, h i]
      simp only [serviceOnce]
      rw [if_neg (Nat.succ_ne_zero f), ih (i + 1)]
      simp [List.replicate_succ]

theorem retryGo_first_ok (resp : Nat → List ConsulNode) (node : ConsulNode)
    (rest : List ConsulNode) (fuel i : Nat) (h : resp i = node :: rest) :
    retryGo resp i (fuel + 1)
      = (Except.ok (node.Service.Address, node.Service.Port), 1, []) := by
  simp [retryGo, h, serviceOnce]

/-! ### Helper lemmas about the awaiting-running loop -/

theorem ensure_running_polled (st : Nat → Except NomadException String) :
    ∀ fuel i prev e, e ∈ (ensure_running st i prev fuel).2 →
      ∃ r, e = Ev.polled r := by
  intro fuel
  induction fuel with
  | zero => intro i prev e he; simp [ensure_running] at he
  | succ f ih =>
      intro i prev e he
      simp only [ensure_running] at he
      cases hr : st i with
      | error err =>
          rw [hr] at he
          cases prev with
          | none => simp at he; exact ⟨_, he⟩
          | some s =>
              by_cases hs : s = "running"
              · simp [hs] at he; exact ⟨_, he⟩
              · by_cases hd : s = "dead"
                · simp [hs, hd] at he; exact ⟨_, he⟩
                · simp [hs, hd] at he
                  rcases he with he | he
                  · exact ⟨_, he⟩
                  · exact ih (i + 1) (some s) e he
      | ok s =>
          rw [hr] at he
          by_cases hs : s = "running"
          · simp [hs] at he; exact ⟨_, he⟩
          · by_cases hd : s = "dead"
            · simp [hs, hd] at he; exact ⟨_, he⟩
            · simp [hs, hd] at he
              rcases he with he | he
              · exact ⟨_, he⟩
              · exact ih (i + 1) (some s) e he

theorem ensure_running_succ (st : Nat → Except NomadException String)
    (i : Nat) (prev : Option String) (fuel : Nat) :
    ensure_running st i prev (fuel + 1)
      = match (match st i with
                | Except.ok s => some s
                | Except.error _ => prev : Option String) with
        | none => (RunOutcome.unboundLocal, [Ev.polled (st i)])
        | some status =>
            if status = "running" then
              (RunOutcome.exited, [Ev.polled (st i)])
            else if status = "dead" then
              (RunOutcome.deadError, [Ev.polled (st i)])
            else
              ((ensure_running st (i + 1) (some status) fuel).1,
                Ev.polled (st i)
                  :: (ensure_running st (i + 1) (some status) fuel).2) := rfl

theorem ensure_running_exit_last (st : Nat → Except NomadException String) :
    ∀ fuel i prev, prev ≠ some "running" →
      (ensure_running st i prev fuel).1 = RunOutcome.exited →
      ∃ tr, (ensure_running st i prev fuel).2
        = tr ++ [Ev.polled (Except.ok "running")] := by
  intro fuel
  induction fuel with
  | zero => intro i prev _ hres; simp [ensure_running] at hres
  | succ f ih =>
      intro i prev hprev hres
      cases hr : st i with
      | error err =>
          rw [ensure_running_succ, hr] at hres
          rw [ensure_running_succ, hr]
          cases prev with
          | none => simp at hres
          | some s =>
              by_cases hs : s = "running"
              · exact absurd (by rw [hs]) hprev
              · by_cases hd : s = "dead"
                · simp [hs, hd] at hres
                · simp only [if_neg hs, if_neg hd] at hres ⊢
                  obtain ⟨tr, htr⟩ := ih (i + 1) (some s) (by simp [hs]) hres
                  exact ⟨Ev.polled (Except.error err) :: tr, by simp [htr]⟩
      | ok s =>
          rw [ensure_running_succ, hr] at hres
          rw [ensure_running_succ, hr]
          by_cases hs : s = "running"
          · subst hs
            exact ⟨[], by simp⟩
          · by_cases hd : s = "dead"
            · simp [hs, hd] at hres
            · simp only [if_neg hs, if_neg hd] at hres ⊢
              obtain ⟨tr, htr⟩ := ih (i + 1) (some s) (by simp [hs]) hres
              exact ⟨Ev.polled (Except.ok s) :: tr, by simp [htr]⟩

end JNSpawner

namespace JNSpawner

/-! ### Reduction of `task_status` on a single allocation -/

theorem task_status_one (ct : Int) (l : List (String × TaskState))
    (h : l ≠ []) :
    task_status [⟨ct, some l⟩] = Except.ok (taskLoop (l.map Prod.snd)) := by
  have hne : (l.map Prod.snd).isEmpty = false := by
    cases l with
    | nil => exact absurd rfl h
    | cons a r => rfl
  simp [task_status, pyMaxByCreateTime, hne]

/-! ### Claim theorems -/

/-- C1 counterexample: with all four identity fields set, the execution
of `stop` in which the remote delete would fail with a `RemoteError`
raises `TypeError` at the `NomadService` construction (before the `try`)
and returns with every identity field still set — refuting the claim
that `stop` clears all four fields before returning. -/
theorem stop_claim_counterexample :
    stop (Except.error ⟨"Error deleting job: job not found"⟩)
        ⟨some "jupyter-notebook-af1692", some "jupyter-notebook",
          some "jupyter-notebook-af1692-notebook", some "af1692"⟩
      = (Except.error PyErr.typeError,
          ⟨some "jupyter-notebook-af1692", some "jupyter-notebook",
            some "jupyter-notebook-af1692-notebook", some "af1692"⟩) := by
  decide

/-- C1 (amended): `stop` never clears any identity field: the
`NomadService` construction at line 378 omits the required `namespace`
argument and raises `TypeError` before the `try` on every invocation,
so `delete_job`, `clear_state` and the `except` handler are all
unreachable and the exception propagates to the caller with all four
fields unchanged. -/
theorem stop_amended (d : Except NomadException Unit) (s : SpawnerState) :
    stop d s = (Except.error PyErr.typeError, s) :=
  rfl

/-- C2: on a successful submission `schedule_job` returns the bare
`job_id` string (despite its `Tuple[str, str]` annotation), and `start`'s
`job_id, job_name = await nomad_service.schedule_job(...)` unpacking of
that string raises `ValueError` for any id that is not exactly two
characters long. -/
theorem schedule_job_single_string_bug :
    schedule_job ⟨false, 200, "parse ok"⟩ "jupyter-notebook-af1692"
        ⟨false, 200, "register ok"⟩
      = Except.ok "jupyter-notebook-af1692"
    ∧ unpackPair "jupyter-notebook-af1692" = Except.error PyErr.valueError := by
  decide

/-- C3 counterexample: a task-state document whose first task (in dict
iteration order) is non-running but not failed, and whose second task is
dead and failed, makes `task_status` return `"pending"`, not `"dead"` —
refuting "returns dead regardless of the states of the other tasks". -/
theorem task_status_claim_counterexample :
    task_status [⟨0, some [("notebook", ⟨"pending", false, []⟩),
        ("sidecar", ⟨"dead", true, []⟩)]⟩]
      = Except.ok "pending"
    ∧ (Except.ok "pending" : Except PyErr String) ≠ Except.ok "dead" := by
  decide

/-- C3 (amended): `task_status` returns `"dead"` for every document in
which some task is dead-and-failed and every task preceding it in
iteration order reports `"running"`; and it returns `"running"` for
every nonempty document in which every task reports `"running"`. -/
theorem task_status_amended (ct : Int) (pre post : List (String × TaskState))
    (nm : String) (t : TaskState) (tasks : List (String × TaskState)) :
    ((∀ p ∈ pre, (Prod.snd p).State = "running") → t.State = "dead" →
        t.Failed = true →
        task_status [⟨ct, some (pre ++ (nm, t) :: post)⟩] = Except.ok "dead")
    ∧ (tasks ≠ [] → (∀ p ∈ tasks, (Prod.snd p).State = "running") →
        task_status [⟨ct, some tasks⟩] = Except.ok "running") := by
  constructor
  · intro hpre h1 h2
    rw [task_status_one ct _ (by simp)]
    rw [List.map_append, List.map_cons]
    rw [taskLoop_first_failed (pre.map Prod.snd) (post.map Prod.snd) t
      (fun u hu => by
        obtain ⟨p, hp, hpu⟩ := List.mem_map.mp hu
        exact hpu ▸ hpre p hp) h1 h2]
  · intro hne hall
    rw [task_status_one ct tasks hne]
    rw [taskLoop_all_running (tasks.map Prod.snd)
      (fun u hu => by
        obtain ⟨p, hp, hpu⟩ := List.mem_map.mp hu
        exact hpu ▸ hall p hp)]

/-- C3 witness: instantiation of the amended claim at a concrete
two-task document whose first task is running and second is
dead-and-failed. -/
theorem task_status_amended_witness :
    task_status [⟨0, some [("notebook", ⟨"running", false, []⟩),
        ("sidecar", ⟨"dead", true, []⟩)]⟩]
      = Except.ok "dead" :=
  (task_status_amended 0 [("notebook", ⟨"running", false, []⟩)] []
      "sidecar" ⟨"dead", true, []⟩ []).1 (by decide) rfl rfl

/-- C4 counterexample: with two healthy instances registered, `start`'s
resolution step (`service` with its retry decorator) returns the first
instance's `(address, port)` on the first attempt instead of failing
with an ambiguous-endpoint error. -/
theorem service_resolution_counterexample :
    serviceWithRetry
        (fun _ => [⟨⟨"10.0.0.1", 8888⟩⟩, ⟨⟨"10.0.0.2", 9999⟩⟩])
      = (Except.ok ("10.0.0.1", 8888), 1, []) := by
  decide

/-- C4 (amended): `start`'s resolution step returns the first registry
instance's `(address, port)` whenever at least one instance is present,
with no ambiguity check; the ambiguity error lives only in
`NomadService.get_service_address` — which `start` never calls — and
that method does raise on more than one service. -/
theorem service_resolution_amended (node : ConsulNode)
    (rest : List ConsulNode) (s1 s2 : ConsulServiceEntry)
    (more : List ConsulServiceEntry) (service_name : String) :
    serviceOnce (node :: rest)
        = Except.ok (node.Service.Address, node.Service.Port)
    ∧ get_service_address (s1 :: s2 :: more) service_name
        = Except.error ⟨"Multiple services found for " ++ service_name⟩ :=
  ⟨rfl, rfl⟩

/-- C5: on an empty allocations list `task_status` raises `ValueError`
(from `max()` of an empty sequence, the `if not allocs` guard testing
the always-truthy response object) instead of returning `"pending"`. -/
theorem task_status_empty_allocations_bug :
    task_status [] = Except.error PyErr.valueError
    ∧ task_status [] ≠ Except.ok "pending" := by
  decide

/-- C6: `poll` raises on every invocation, whatever the status query
would return: the `NomadService` construction at line 356, before the
`try`, omits the required `namespace` field and raises `TypeError`,
which nothing catches — so the healthy/unhealthy/error result protocol
of the `try` body is never reached. -/
theorem poll_raises_type_error_bug (r : Except NomadException String) :
    poll r = Except.error PyErr.typeError :=
  rfl

/-- C7: with every registry response empty, the retry-decorated
resolution makes exactly 5 attempts with a fixed 3-time-unit wait before
each re-attempt and then fails (tenacity's retry-exhausted error
wrapping the `IndexError` from indexing the empty instance list); with
exactly one healthy instance it returns that instance's
`(address, port)` on the first attempt with no wait. -/
theorem service_retry_policy (resp : Nat → List ConsulNode)
    (node : ConsulNode) :
    ((∀ i, resp i = []) →
        serviceWithRetry resp
          = (Except.error (PyErr.retryError PyErr.indexError), 5,
              [3, 3, 3, 3]))
    ∧ (resp 0 = [node] →
        serviceWithRetry resp
          = (Except.ok (node.Service.Address, node.Service.Port), 1, [])) := by
  constructor
  · intro h
    exact retryGo_all_empty resp h 4 0
  · intro h
    exact retryGo_first_ok resp node [] 4 0 h

/-- C7 witness: the retry policy at a concrete always-empty response
stream and at a concrete single-instance response. -/
theorem service_retry_policy_witness :
    serviceWithRetry (fun _ => ([] : List ConsulNode))
      = (Except.error (PyErr.retryError PyErr.indexError), 5, [3, 3, 3, 3])
    ∧ serviceWithRetry (fun _ => [(⟨⟨"10.0.0.1", 8888⟩⟩ : ConsulNode)])
      = (Except.ok ("10.0.0.1", 8888), 1, []) :=
  ⟨(service_retry_policy (fun _ => []) ⟨⟨"10.0.0.1", 8888⟩⟩).1
      (fun _ => rfl),
    (service_retry_policy (fun _ => [⟨⟨"10.0.0.1", 8888⟩⟩])
      ⟨⟨"10.0.0.1", 8888⟩⟩).2 rfl⟩

/-- C8: `create_volume` raises iff the scheduler response is an error
whose body contains neither idempotent-conflict marker; in particular a
second create call whose error body reports the already-exists condition
succeeds without error. -/
theorem create_volume_characterization (result : HttpResult) :
    ((∃ e, create_volume result = Except.error e) ↔
      (result.is_error = true
        ∧ strContains result.text accessPointMarker = false
        ∧ strContains result.text externalIdMarker = false))
    ∧ (result.is_error = true →
        strContains result.text accessPointMarker = true →
        create_volume result = Except.ok ()) := by
  constructor
  · unfold create_volume
    cases hie : result.is_error <;>
      cases h1 : strContains result.text accessPointMarker <;>
      cases h2 : strContains result.text externalIdMarker <;>
      simp [hie, h1, h2]
  · intro hie h1
    unfold create_volume
    simp [hie, h1]

/-- C8 witness: a second create call with the same volume id that
observes the already-exists condition succeeds. -/
theorem create_volume_characterization_witness :
    create_volume ⟨true, 500,
      "rpc error: 1 error occurred: ErrorCode: \"AccessPointAlreadyExists\": access point already exists"⟩
      = Except.ok () :=
  (create_volume_characterization _).2 rfl (by decide)

/-- C9: in every `start` execution whose trace contains the registry
query, that query occurs strictly after a scheduler poll that observed
status `"running"`. -/
theorem registry_only_after_running
    (st : Nat → Except NomadException String) (fuel : Nat)
    (h : Ev.registryQueried ∈ (startTrace st fuel).2) :
    ∃ tr1 tr2, (startTrace st fuel).2
        = tr1 ++ Ev.polled (Except.ok "running") :: tr2
      ∧ Ev.registryQueried ∈ tr2 := by
  by_cases hres : (ensure_running st 0 none fuel).1 = RunOutcome.exited
  · obtain ⟨tr, htr⟩ :=
      ensure_running_exit_last st fuel 0 none (by simp) hres
    have hstart : (startTrace st fuel).2
        = Ev.submitted :: (ensure_running st 0 none fuel).2
            ++ [Ev.registryQueried] := by
      simp [startTrace, hres]
    rw [hstart, htr]
    exact ⟨Ev.submitted :: tr, [Ev.registryQueried], by simp, by simp⟩
  · exfalso
    have hmem : Ev.registryQueried ∈ (ensure_running st 0 none fuel).2 := by
      cases hos : (ensure_running st 0 none fuel).1 with
      | exited => exact absurd hos hres
      | deadError => simp [startTrace, hos] at h; exact h
      | unboundLocal => simp [startTrace, hos] at h; exact h
      | fuelOut => simp [startTrace, hos] at h; exact h
    obtain ⟨r, hr⟩ := ensure_running_polled st fuel 0 none _ hmem
    exact absurd hr (by simp)

/-- C9 witness: the ordering property at a concrete run whose first poll
observes `"running"`. -/
theorem registry_only_after_running_witness :
    ∃ tr1 tr2, (startTrace (fun _ => Except.ok "running") 1).2
        = tr1 ++ Ev.polled (Except.ok "running") :: tr2
      ∧ Ev.registryQueried ∈ tr2 :=
  registry_only_after_running (fun _ => Except.ok "running") 1 (by decide)

/-- C10: when the very first job-status query raises, the caught
exception leaves the `status` local unassigned and the following
`if status == "running"` read fails (`UnboundLocalError`), crashing
`start`; only after at least one successful assignment does a later
query failure lead to another poll with the stale value. -/
theorem ensure_running_unbound_status_bug :
    ensure_running (fun _ => Except.error ⟨"connection refused"⟩) 0 none 5
      = (RunOutcome.unboundLocal,
          [Ev.polled (Except.error ⟨"connection refused"⟩)])
    ∧ ensure_running
        (fun i => if i = 0 then Except.ok "pending"
                  else Except.error ⟨"connection refused"⟩) 0 none 3
      = (RunOutcome.fuelOut,
          [Ev.polled (Except.ok "pending"),
            Ev.polled (Except.error ⟨"connection refused"⟩),
            Ev.polled (Except.error ⟨"connection refused"⟩)]) := by
  decide

end JNSpawner
